import Mathlib

/-! # ddblocal: the emulator coordinator, its runner and the process supervisor

A shallow embedding of `ddblocal.go` and `executor_terminator.go`.

* The four collaborator interfaces (`StringGenerator`, `ExecutorTerminator`,
  `PresenceChecker`, `ClientInitializer`) are records of state-passing
  functions over an arbitrary collaborator state `σ`: an implementation may
  keep state, fail, and answer differently on each call.
* A `dynamodbiface.DynamoDBAPI` value is a handle of type `κ` (nil is `none`);
  its method set is looked up through `api : κ → DynamoDBAPI σ`.
* Every call the embedded code makes on a collaborator, on the client or on
  the test body is appended to `World.trace`, in program order.
* A Go `error` is `Option GoError`, nil being `none`.
-/

namespace Ddblocal

/-- A non-nil Go `error`, identified by the text of its `Error()` method. -/
structure GoError where
  Error : String
deriving DecidableEq, Repr

/-! ## The parts of the DynamoDB request types the code touches -/

/-- Record `dynamodb.ProvisionedThroughput`. -/
structure ProvisionedThroughput where
  ReadCapacityUnits : Option Int
  WriteCapacityUnits : Option Int
deriving DecidableEq, Repr

/-- Record `dynamodb.AttributeDefinition`. -/
structure AttributeDefinition where
  AttributeName : Option String
  AttributeType : Option String
deriving DecidableEq, Repr

/-- Record `dynamodb.KeySchemaElement`. -/
structure KeySchemaElement where
  AttributeName : Option String
  KeyType : Option String
deriving DecidableEq, Repr

/-- Record `dynamodb.GlobalSecondaryIndex`. -/
structure GlobalSecondaryIndex where
  IndexName : Option String
  KeySchema : List KeySchemaElement
  ProvisionedThroughput : Option ProvisionedThroughput
deriving DecidableEq, Repr

/-- Record `dynamodb.CreateTableInput`. -/
structure CreateTableInput where
  AttributeDefinitions : List AttributeDefinition
  BillingMode : Option String
  GlobalSecondaryIndexes : List GlobalSecondaryIndex
  KeySchema : List KeySchemaElement
  ProvisionedThroughput : Option ProvisionedThroughput
  TableName : Option String
deriving DecidableEq, Repr

/-- Record `dynamodb.DeleteTableInput`. -/
structure DeleteTableInput where
  TableName : Option String
deriving DecidableEq, Repr

/-! ## Calls and the world -/

/-- One call made by the embedded code, with the arguments it passed. -/
inductive Event (κ : Type) where
  | Generate
  | Execute (name : String) (arg : List String)
  | Terminate
  | IsPresent (port : Int)
  | InitClient (port : Int)
  | CreateTable (client : κ) (input : CreateTableInput)
  | DeleteTable (client : κ) (input : DeleteTableInput)
  | Body (client : Option κ) (tableName : String)
deriving DecidableEq, Repr

/-- The collaborators' state together with the calls made so far. -/
structure World (κ σ : Type) where
  state : σ
  trace : List (Event κ)

/-- The world after a call `ev` that left the collaborators in state `s`. -/
def World.record {κ σ : Type} (w : World κ σ) (ev : Event κ) (s : σ) : World κ σ :=
  { state := s, trace := w.trace ++ [ev] }

/-! ## The collaborator interfaces of `ddblocal.go` -/

/-- Interface `StringGenerator`. -/
structure StringGenerator (σ : Type) where
  Generate : σ → (String × Option GoError) × σ

/-- Interface `ExecutorTerminator`. -/
structure ExecutorTerminator (σ : Type) where
  Execute : String → List String → σ → Option GoError × σ
  Terminate : σ → Option GoError × σ

/-- Interface `PresenceChecker`. -/
structure PresenceChecker (σ : Type) where
  IsPresent : Int → σ → Bool × σ

/-- Interface `ClientInitializer`; the client it returns may be nil. -/
structure ClientInitializer (κ σ : Type) where
  InitClient : Int → σ → (Option κ × Option GoError) × σ

/-- The two methods of `dynamodbiface.DynamoDBAPI` that `Runner` calls; the
output value is dropped by the caller, so only the error is kept. -/
structure DynamoDBAPI (σ : Type) where
  CreateTable : CreateTableInput → σ → Option GoError × σ
  DeleteTable : DeleteTableInput → σ → Option GoError × σ

/-- Struct `Emulator`. -/
structure Emulator (κ σ : Type) where
  client : Option κ
  tng : StringGenerator σ
  et : ExecutorTerminator σ
  pc : PresenceChecker σ
  ci : ClientInitializer κ σ
  port : Int
  libPath : String
  jarPath : String

/-- Method `Emulator.Client`. -/
def Emulator.Client {κ σ : Type} (e : Emulator κ σ) : Option κ :=
  e.client

/-- Function `strconv.Itoa`: the decimal text of an integer. -/
def Itoa (i : Int) : String :=
  if i < 0 then "-" ++ Nat.repr i.natAbs else Nat.repr i.toNat

/-- Method `Emulator.Close`. -/
def Emulator.Close {κ σ : Type} (e : Emulator κ σ) (w : World κ σ) :
    Option GoError × World κ σ :=
  let r := e.et.Terminate w.state
  let w1 := w.record Event.Terminate r.2
  match r.1 with
  | some err => (some err, w1)
  | none => (none, w1)

/-- Method `Emulator.start`. -/
def Emulator.start {κ σ : Type} (e : Emulator κ σ) (w : World κ σ) :
    Option GoError × World κ σ :=
  let p := e.pc.IsPresent e.port w.state
  let w1 := w.record (Event.IsPresent e.port) p.2
  if p.1 then (none, w1)
  else
    let args := ["-Djava.library.path=" ++ e.libPath, "-jar", e.jarPath, "-port",
      Itoa e.port, "-sharedDb", "-inMemory"]
    let r := e.et.Execute "java" args w1.state
    let w2 := w1.record (Event.Execute "java" args) r.2
    match r.1 with
    | some err => (some err, w2)
    | none => (none, w2)

/-- Method `Emulator.initClient`: the emulator comes back with the client
stored when `InitClient` gave no error. -/
def Emulator.initClient {κ σ : Type} (e : Emulator κ σ) (w : World κ σ) :
    (Emulator κ σ × Option GoError) × World κ σ :=
  let r := e.ci.InitClient e.port w.state
  let w1 := w.record (Event.InitClient e.port) r.2
  match r.1.2 with
  | some err => ((e, some err), w1)
  | none => (({ e with client := r.1.1 }, none), w1)

/-- Type `EmulatorOption`: a function that edits the emulator in place. -/
abbrev EmulatorOption (κ σ : Type) := Emulator κ σ → Emulator κ σ

/-- Option `CustomStringGenerator`. -/
def CustomStringGenerator {κ σ : Type} (gen : StringGenerator σ) : EmulatorOption κ σ :=
  fun e => { e with tng := gen }

/-- Option `CustomExecutorTerminator`. -/
def CustomExecutorTerminator {κ σ : Type} (execTerm : ExecutorTerminator σ) :
    EmulatorOption κ σ :=
  fun e => { e with et := execTerm }

/-- Option `CustomPresenceChecker`. -/
def CustomPresenceChecker {κ σ : Type} (presCheck : PresenceChecker σ) : EmulatorOption κ σ :=
  fun e => { e with pc := presCheck }

/-- Option `CustomClientInitializer`. -/
def CustomClientInitializer {κ σ : Type} (initClient : ClientInitializer κ σ) :
    EmulatorOption κ σ :=
  fun e => { e with ci := initClient }

/-- Option `CustomPort`. -/
def CustomPort {κ σ : Type} (port : Int) : EmulatorOption κ σ :=
  fun e => { e with port := port }

/-- Option `CustomLibPath`. -/
def CustomLibPath {κ σ : Type} (libPath : String) : EmulatorOption κ σ :=
  fun e => { e with libPath := libPath }

/-- Option `CustomJarPath`. -/
def CustomJarPath {κ σ : Type} (jarPath : String) : EmulatorOption κ σ :=
  fun e => { e with jarPath := jarPath }

/-- The default collaborators built by `NewPresenceChecker`,
`NewExecutorTerminator`, `NewStringGenerator` and `NewClientInitialier`. -/
structure Defaults (κ σ : Type) where
  NewPresenceChecker : PresenceChecker σ
  NewExecutorTerminator : ExecutorTerminator σ
  NewStringGenerator : StringGenerator σ
  NewClientInitialier : ClientInitializer κ σ

/-- The configuration `New` works with: the defaults (port 8000, the two
paths read from the environment through `getenv`), then every option applied
in the order given. -/
def resolve {κ σ : Type} (d : Defaults κ σ) (getenv : String → String)
    (options : List (EmulatorOption κ σ)) : Emulator κ σ :=
  let ddb : Emulator κ σ :=
    { client := none
      pc := d.NewPresenceChecker
      et := d.NewExecutorTerminator
      tng := d.NewStringGenerator
      ci := d.NewClientInitialier
      port := 8000
      libPath := getenv "DDBLOCAL_LIB"
      jarPath := getenv "DDBLOCAL_JAR" }
  options.foldl (fun e option => option e) ddb

/-- Function `New`: the emulator (nil on failure) and the error. -/
def New {κ σ : Type} (d : Defaults κ σ) (getenv : String → String)
    (options : List (EmulatorOption κ σ)) (w : World κ σ) :
    (Option (Emulator κ σ) × Option GoError) × World κ σ :=
  let ddb := resolve d getenv options
  match ddb.start w with
  | (some err, w1) => ((none, some err), w1)
  | (none, w1) =>
    match ddb.initClient w1 with
    | ((_, some err), w2) => ((none, some err), w2)
    | ((ddb2, none), w2) => ((some ddb2, none), w2)

/-! ## The test handle and `Runner` -/

/-- How a piece of test code ended: it returned, `FailNow` stopped the
goroutine (`runtime.Goexit`), or a method was called on a nil interface. -/
inductive Exit where
  | returned
  | goexit
  | panicked
deriving DecidableEq, Repr

/-- The closure `Runner` hands to `t.Cleanup`: it captures the emulator and
the generated table name. -/
structure Cleanup (κ σ : Type) where
  e : Emulator κ σ
  tableName : String

/-- The state of a `testing.TB` handle: the failed mark, the logged
messages, and the cleanup functions registered so far, oldest first. -/
structure TB (κ σ : Type) where
  failed : Bool
  logs : List String
  cleanups : List (Cleanup κ σ)

/-- Method `t.Fatalf`: log the message and mark the test failed; the caller
then stops with `Exit.goexit`. -/
def TB.Fatalf {κ σ : Type} (t : TB κ σ) (msg : String) : TB κ σ :=
  { t with failed := true, logs := t.logs ++ [msg] }

/-- Method `t.Cleanup`: register a function to run when the test ends. -/
def TB.Cleanup {κ σ : Type} (t : TB κ σ) (c : Cleanup κ σ) : TB κ σ :=
  { t with cleanups := t.cleanups ++ [c] }

/-- How the caller-supplied body ended: it returned without failing the
test, it marked the test failed and returned (`t.Error`), it marked the test
failed and stopped (`t.Fatal`), or it panicked. -/
inductive BodyResult where
  | passed
  | failed
  | failedNow
  | panicked
deriving DecidableEq, Repr

/-- What `Runner` leaves behind: how it ended, the test handle, the caller's
table definition (which `Runner` edits through the pointer) and the world. -/
structure RunnerResult (κ σ : Type) where
  exit : Exit
  t : TB κ σ
  tableDef : CreateTableInput
  world : World κ σ

/-- Method `Emulator.Runner`. -/
def Emulator.Runner {κ σ : Type} (api : κ → DynamoDBAPI σ) (e : Emulator κ σ) (t : TB κ σ)
    (tableDef : CreateTableInput) (f : Option κ → String → σ → BodyResult × σ)
    (w : World κ σ) : RunnerResult κ σ :=
  let g := e.tng.Generate w.state
  let w1 := w.record Event.Generate g.2
  let tableName := g.1.1
  match g.1.2 with
  | some err =>
    { exit := Exit.goexit
      t := t.Fatalf ("failed to generate table name: " ++ err.Error)
      tableDef := tableDef
      world := w1 }
  | none =>
    let tableDef1 := { tableDef with TableName := some tableName }
    let tableDef2 :=
      match tableDef1.ProvisionedThroughput with
      | none =>
        { tableDef1 with
          ProvisionedThroughput :=
            some { ReadCapacityUnits := some 1, WriteCapacityUnits := some 1 } }
      | some _ => tableDef1
    match e.client with
    | none => { exit := Exit.panicked, t := t, tableDef := tableDef2, world := w1 }
    | some client =>
      let r := (api client).CreateTable tableDef2 w1.state
      let w2 := w1.record (Event.CreateTable client tableDef2) r.2
      match r.1 with
      | some err =>
        { exit := Exit.goexit
          t := t.Fatalf ("failed to create table: " ++ err.Error)
          tableDef := tableDef2
          world := w2 }
      | none =>
        let t1 := t.Cleanup { e := e, tableName := tableName }
        let b := f e.client tableName w2.state
        let w3 := w2.record (Event.Body e.client tableName) b.2
        match b.1 with
        | BodyResult.passed =>
          { exit := Exit.returned, t := t1, tableDef := tableDef2, world := w3 }
        | BodyResult.failed =>
          { exit := Exit.returned, t := { t1 with failed := true }, tableDef := tableDef2,
            world := w3 }
        | BodyResult.failedNow =>
          { exit := Exit.goexit, t := { t1 with failed := true }, tableDef := tableDef2,
            world := w3 }
        | BodyResult.panicked =>
          { exit := Exit.panicked, t := t1, tableDef := tableDef2, world := w3 }

/-- The body of the closure registered by `Runner`: delete the table by its
generated name and fail the test when the deletion fails. -/
def Cleanup.run {κ σ : Type} (api : κ → DynamoDBAPI σ) (c : Cleanup κ σ) (t : TB κ σ)
    (w : World κ σ) : Exit × TB κ σ × World κ σ :=
  match c.e.client with
  | none => (Exit.panicked, t, w)
  | some client =>
    let input : DeleteTableInput := { TableName := some c.tableName }
    let r := (api client).DeleteTable input w.state
    let w1 := w.record (Event.DeleteTable client input) r.2
    match r.1 with
    | some err => (Exit.goexit, t.Fatalf ("failed to delete table: " ++ err.Error), w1)
    | none => (Exit.returned, t, w1)

/-- What Go's `testing` package does when the test ends: every registered
cleanup function is taken off the list and run once, the last registered
first, the later ones also when an earlier one stopped with `FailNow`. The
list `cs` is the registered functions, newest first. -/
def runCleanupList {κ σ : Type} (api : κ → DynamoDBAPI σ) :
    List (Cleanup κ σ) → TB κ σ → World κ σ → TB κ σ × World κ σ
  | [], t, w => (t, w)
  | c :: cs, t, w =>
    let r := c.run api t w
    runCleanupList api cs r.2.1 r.2.2

/-- The end of the test: run the registered cleanups, newest first. -/
def TB.runCleanup {κ σ : Type} (api : κ → DynamoDBAPI σ) (t : TB κ σ) (w : World κ σ) :
    TB κ σ × World κ σ :=
  runCleanupList api t.cleanups.reverse { t with cleanups := [] } w

/-! ## The default process supervisor of `executor_terminator.go` -/

/-- A started `exec.Cmd`: the command line and the process it runs as. -/
structure Cmd where
  name : String
  arg : List String
  pid : Nat
deriving DecidableEq, Repr

/-- The operating system as the supervisor uses it, over its own state `ω`:
`Start` is `cmd.Start()` (an error, or the process id of the new process),
`Kill` is `Process.Kill()`. -/
structure OS (ω : Type) where
  Start : String → List String → ω → (Option GoError × Nat) × ω
  Kill : Nat → ω → Option GoError × ω

/-- Struct `executorTerminator` (its `instance` field, nil being `none`),
next to the state of the operating system. -/
structure ExecState (ω : Type) where
  instance_ : Option Cmd
  os : ω

/-- Method `executorTerminator.Execute`. -/
def executorTerminator.Execute {ω : Type} (sys : OS ω) (name : String) (arg : List String)
    (s : ExecState ω) : Option GoError × ExecState ω :=
  let r := sys.Start name arg s.os
  match r.1.1 with
  | some err => (some err, { s with os := r.2 })
  | none => (none, { instance_ := some { name := name, arg := arg, pid := r.1.2 }, os := r.2 })

/-- Method `executorTerminator.Terminate`. -/
def executorTerminator.Terminate {ω : Type} (sys : OS ω) (s : ExecState ω) :
    Option GoError × ExecState ω :=
  match s.instance_ with
  | none => (none, s)
  | some cmd =>
    let r := sys.Kill cmd.pid s.os
    match r.1 with
    | some err => (some err, { s with os := r.2 })
    | none => (none, { instance_ := none, os := r.2 })

/-- Function `NewExecutorTerminator`: the supervisor as an
`ExecutorTerminator`; its state starts as `executorTerminator.fresh`. -/
def NewExecutorTerminator {ω : Type} (sys : OS ω) : ExecutorTerminator (ExecState ω) :=
  { Execute := executorTerminator.Execute sys
    Terminate := executorTerminator.Terminate sys }

/-- The zero value `&executorTerminator{}`: no process is tracked. -/
def executorTerminator.fresh {ω : Type} (o : ω) : ExecState ω :=
  { instance_ := none, os := o }

/-! ## Fixtures: simple collaborators over a call counter -/

/-- A presence checker that always gives the same answer and counts the call. -/
def fixedPresence (present : Bool) : PresenceChecker Nat :=
  { IsPresent := fun _ s => (present, s + 1) }

/-- A supervisor whose two methods always give the same results. -/
def fixedSupervisor (execErr termErr : Option GoError) : ExecutorTerminator Nat :=
  { Execute := fun _ _ s => (execErr, s + 1)
    Terminate := fun s => (termErr, s + 1) }

/-- A name generator that always gives the same result. -/
def fixedNames (name : String) (err : Option GoError) : StringGenerator Nat :=
  { Generate := fun s => ((name, err), s + 1) }

/-- A client factory that always gives the same result. -/
def fixedFactory (client : Option Nat) (err : Option GoError) : ClientInitializer Nat Nat :=
  { InitClient := fun _ s => ((client, err), s + 1) }

/-- A client whose two methods always give the same results. -/
def fixedApi (createErr deleteErr : Option GoError) : Nat → DynamoDBAPI Nat :=
  fun _ =>
    { CreateTable := fun _ s => (createErr, s + 1)
      DeleteTable := fun _ s => (deleteErr, s + 1) }

/-- Defaults for the examples: nothing is listening, every call succeeds. -/
def fixedDefaults : Defaults Nat Nat :=
  { NewPresenceChecker := fixedPresence false
    NewExecutorTerminator := fixedSupervisor none none
    NewStringGenerator := fixedNames "test_name" none
    NewClientInitialier := fixedFactory (some 7) none }

/-- The environment of `TestInitDefaults`. -/
def testEnv (name : String) : String :=
  if name = "DDBLOCAL_LIB" then "test_lib_path"
  else if name = "DDBLOCAL_JAR" then "test_jar_path"
  else ""

/-- The world before anything was called. -/
def World.init {κ σ : Type} (s : σ) : World κ σ :=
  { state := s, trace := [] }

/-- A test handle on which nothing has happened yet. -/
def TB.fresh {κ σ : Type} : TB κ σ :=
  { failed := false, logs := [], cleanups := [] }

/-- The emulator of the runner tests, as `New` returns it: client 7. -/
def testEmulator : Emulator Nat Nat :=
  { resolve fixedDefaults testEnv [] with client := some 7 }

/-- The table definition of `TestRunnerCreatesTableCorrectly`: no capacity
policy at the top level, one index "GSI" without a policy. -/
def testTableInput : CreateTableInput :=
  { AttributeDefinitions := []
    BillingMode := none
    GlobalSecondaryIndexes :=
      [{ IndexName := some "GSI", KeySchema := [], ProvisionedThroughput := none }]
    KeySchema := []
    ProvisionedThroughput := none
    TableName := none }

/-- The input `TestRunnerCreatesTableCorrectly` expects `CreateTable` to
receive: the default policy at the top level and on the index. -/
def expCreateTableInput : CreateTableInput :=
  { AttributeDefinitions := []
    BillingMode := none
    GlobalSecondaryIndexes :=
      [{ IndexName := some "GSI", KeySchema := [],
         ProvisionedThroughput :=
          some { ReadCapacityUnits := some 1, WriteCapacityUnits := some 1 } }]
    KeySchema := []
    ProvisionedThroughput := some { ReadCapacityUnits := some 1, WriteCapacityUnits := some 1 }
    TableName := some "test_name" }

/-- A test body that records nothing and passes. -/
def passingBody : Option Nat → String → Nat → BodyResult × Nat :=
  fun _ _ s => (BodyResult.passed, s + 1)

/-- A test body that fails the test and stops (`t.Fatal`). -/
def failingBody : Option Nat → String → Nat → BodyResult × Nat :=
  fun _ _ s => (BodyResult.failedNow, s + 1)

/-- The table definition of the runner tests with a name of the caller's. -/
def namedTableInput : CreateTableInput :=
  { testTableInput with TableName := some "caller_name" }

/-- The emulator of the runner tests with a name generator that fails. -/
def noNameEmulator : Emulator Nat Nat :=
  { testEmulator with tng := fixedNames "" (some { Error := "no entropy" }) }

/-- Whether a call is a `Generate` call. -/
def Event.isGenerate {κ : Type} : Event κ → Bool
  | Event.Generate => true
  | _ => false

/-- Whether a call is a `CreateTable` call. -/
def Event.isCreateTable {κ : Type} : Event κ → Bool
  | Event.CreateTable _ _ => true
  | _ => false

/-- Whether a call is a call of the test body. -/
def Event.isBody {κ : Type} : Event κ → Bool
  | Event.Body _ _ => true
  | _ => false

/-- Whether a call is an `IsPresent` call. -/
def Event.isIsPresent {κ : Type} : Event κ → Bool
  | Event.IsPresent _ => true
  | _ => false

/-- Whether a call is an `Execute` call. -/
def Event.isExecute {κ : Type} : Event κ → Bool
  | Event.Execute _ _ => true
  | _ => false

/-- An operating system that starts every process and on which no kill
signal can be delivered. -/
def stubbornOS : OS Nat :=
  { Start := fun _ _ o => ((none, 4242), o + 1)
    Kill := fun _ o => (some { Error := "operation not permitted" }, o + 1) }

/-- An operating system that starts and kills every process. -/
def kindOS : OS Nat :=
  { Start := fun _ _ o => ((none, 4242), o + 1)
    Kill := fun _ o => (none, o + 1) }

/-- Defaults whose process supervisor is the default one, on the operating
system `sys`; nothing is listening. -/
def supervisedDefaults (sys : OS Nat) : Defaults Nat (ExecState Nat) :=
  { NewPresenceChecker := { IsPresent := fun _ s => (false, s) }
    NewExecutorTerminator := NewExecutorTerminator sys
    NewStringGenerator := { Generate := fun s => (("test_name", none), s) }
    NewClientInitialier := { InitClient := fun _ s => ((some 7, none), s) } }

/-- The result of `New()` with the default supervisor on `sys`, started from a
supervisor that tracks nothing: the emulator it returns and the world after. -/
def launched (sys : OS Nat) :
    (Option (Emulator Nat (ExecState Nat)) × Option GoError) × World Nat (ExecState Nat) :=
  New (supervisedDefaults sys) testEnv [] (World.init (executorTerminator.fresh 0))

/-- The emulator `New()` returns with the default supervisor on `sys`. -/
def supervisedEmulator (sys : OS Nat) : Emulator Nat (ExecState Nat) :=
  { resolve (supervisedDefaults sys) testEnv [] with client := some 7 }

/-! ## The default presence checker of `presence_checker.go` -/

/-- The request built by `http.NewRequestWithContext`. -/
structure Request where
  Method : String
  URL : String
deriving DecidableEq, Repr

/-- The parts of an `http.Response` that `isPresent` reads. -/
structure Response where
  StatusCode : Int
  Body : String
deriving DecidableEq, Repr

/-- The local struct `respBody` of `isPresent`; its field `Type` is filled
from the JSON key `__type`. -/
structure RespBody where
  Type_ : String
deriving DecidableEq, Repr

/-- The network and the JSON decoder as `isPresent` uses them, over a state
`ω` of their own: `NewRequestWithContext` builds the request (under the 500ms
deadline) or fails, `Do` is `http.DefaultClient.Do` (an error such as
connection refused or deadline exceeded, or a response), `Decode` is
`json.NewDecoder(resp.Body).Decode(&respBody)` (an error, or the struct). -/
structure Net (ω : Type) where
  NewRequestWithContext : String → String → Except GoError Request
  Do : Request → ω → Except GoError Response × ω
  Decode : String → Except GoError RespBody

/-- Function `strings.HasPrefix`. -/
def HasPrefix (s pre : String) : Bool :=
  pre.data.isPrefixOf s.data

/-- Function `isPresent`. -/
def isPresent {ω : Type} (net : Net ω) (port : Int) (o : ω) : Bool × ω :=
  match net.NewRequestWithContext "GET" ("http://localhost:" ++ Itoa port) with
  | Except.error _ => (false, o)
  | Except.ok req =>
    match net.Do req o with
    | (Except.error _, o1) => (false, o1)
    | (Except.ok resp, o1) =>
      if resp.StatusCode ≠ 400 then (false, o1)
      else
        match net.Decode resp.Body with
        | Except.error _ => (false, o1)
        | Except.ok respBody =>
          if !HasPrefix respBody.Type_ "com.amazonaws.dynamodb" then (false, o1)
          else (true, o1)

/-- Method `presenceChecker.IsPresent`: call the function itself. -/
def presenceChecker.IsPresent {ω : Type} (p : Int → ω → Bool × ω) (port : Int) (o : ω) :
    Bool × ω :=
  p port o

/-- Function `NewPresenceChecker`: `isPresent` as a `PresenceChecker`. -/
def NewPresenceChecker {ω : Type} (net : Net ω) : PresenceChecker ω :=
  { IsPresent := presenceChecker.IsPresent (isPresent net) }

/-! ## The default name generator of `string_generator.go` -/

/-- The constant `letters` of `genRandomString`. -/
def letters : String :=
  "0123456789ABCDEFGHIJKLMNOPQRSTUVWXYZabcdefghijklmnopqrstuvwxyz"

/-- The loop body `letters[b%byte(len(letters))]` for a byte `b` (a value
modulo 256); `none` stands for the index-out-of-range panic. -/
def letterAt (b : Nat) : Option Char :=
  letters.toList[b % 256 % (letters.length % 256)]?

/-- The loop `for i, b := range bytes` of `genRandomString`: every byte is
replaced by its letter. -/
def mapLetters : List Nat → Option (List Char)
  | [] => some []
  | b :: bs =>
    match letterAt b, mapLetters bs with
    | some c, some cs => some (c :: cs)
    | _, _ => none

/-- Function `genRandomString`. `Read n` is `rand.Read` on a buffer of `n`
bytes: the bytes in the buffer afterwards and the error. The result is
`none` when the code panics. -/
def genRandomString {ω : Type} (Read : Nat → ω → (List Nat × Option GoError) × ω) (o : ω) :
    Option ((String × Option GoError) × ω) :=
  let r := Read 12 o
  match r.1.2 with
  | some err => some (("", some err), r.2)
  | none =>
    match mapLetters r.1.1 with
    | none => none
    | some cs => some ((String.mk cs, none), r.2)

/-- Method `randStringGenFunc.Generate`: call the function itself. -/
def randStringGenFunc.Generate {ω : Type}
    (r : ω → Option ((String × Option GoError) × ω)) (o : ω) :
    Option ((String × Option GoError) × ω) :=
  r o

/-- The `Generate` method of the generator `NewStringGenerator` returns. -/
def NewStringGenerator.Generate {ω : Type} (Read : Nat → ω → (List Nat × Option GoError) × ω) :
    ω → Option ((String × Option GoError) × ω) :=
  randStringGenFunc.Generate (genRandomString Read)

/-- The number of byte values that the loop body maps to the character `c`. -/
def preimages (c : Char) : Nat :=
  (List.range 256).countP (fun b => letterAt b == some c)

/-! ## Fixtures for the presence checker and the name generator -/

/-- The body the emulator answers an unsigned request with, as the test
server encodes it. -/
def probeBody : String :=
  "\x7b\"__type\":\"com.amazonaws.dynamodb.v20120810#MissingAuthenticationToken\"\x7d\n"

/-- The same body with the namespace dropped from `__type`. -/
def bareBody : String :=
  "\x7b\"__type\":\"MissingAuthenticationToken\"\x7d\n"

/-- A body without a `__type` key. -/
def untypedBody : String :=
  "\x7b\"message\":\"hello\"\x7d\n"

/-- The JSON decoder on the bodies of the examples; an empty body is the
error `EOF`, anything else is malformed. -/
def stubDecode (body : String) : Except GoError RespBody :=
  if body = probeBody then
    Except.ok { Type_ := "com.amazonaws.dynamodb.v20120810#MissingAuthenticationToken" }
  else if body = bareBody then Except.ok { Type_ := "MissingAuthenticationToken" }
  else if body = untypedBody then Except.ok { Type_ := "" }
  else if body = "" then Except.error { Error := "EOF" }
  else Except.error { Error := "invalid character" }

/-- A network on which every request gets the same answer. -/
def stubNet (answer : Except GoError Response) : Net Nat :=
  { NewRequestWithContext := fun method url => Except.ok { Method := method, URL := url }
    Do := fun _ o => (answer, o + 1)
    Decode := stubDecode }

/-- A random source that fills the buffer with the given bytes. -/
def fixedRead (bs : List Nat) (err : Option GoError) :
    Nat → Nat → (List Nat × Option GoError) × Nat :=
  fun _ o => ((bs, err), o + 1)

/-! ## Lemmas shared by the theorems on `New` -/

theorem Itoa_8000 : Itoa 8000 = "8000" := by decide

/-- An option list none of whose members edits the port leaves the port of
the emulator it is folded over untouched. -/
theorem foldl_port {κ σ : Type} (options : List (EmulatorOption κ σ))
    (h : ∀ o ∈ options, ∀ e : Emulator κ σ, (o e).port = e.port) (e : Emulator κ σ) :
    (options.foldl (fun e option => option e) e).port = e.port := by
  induction options generalizing e with
  | nil => rfl
  | cons o os ih =>
    simp only [List.foldl_cons]
    rw [ih (fun o2 ho2 => h o2 (List.mem_cons_of_mem _ ho2)), h o (List.mem_cons_self _ _)]

/-- The calls of `New`, in order, for every outcome of the collaborators. -/
theorem New_trace {κ σ : Type} (d : Defaults κ σ) (getenv : String → String)
    (options : List (EmulatorOption κ σ)) (w : World κ σ) :
    (New d getenv options w).2.trace =
      w.trace ++ Event.IsPresent (resolve d getenv options).port ::
        (if ((resolve d getenv options).pc.IsPresent (resolve d getenv options).port
            w.state).1
          then [Event.InitClient (resolve d getenv options).port]
          else
            Event.Execute "java"
              ["-Djava.library.path=" ++ (resolve d getenv options).libPath, "-jar",
               (resolve d getenv options).jarPath, "-port",
               Itoa (resolve d getenv options).port, "-sharedDb", "-inMemory"] ::
            (if ((resolve d getenv options).et.Execute "java"
                ["-Djava.library.path=" ++ (resolve d getenv options).libPath, "-jar",
                 (resolve d getenv options).jarPath, "-port",
                 Itoa (resolve d getenv options).port, "-sharedDb", "-inMemory"]
                ((resolve d getenv options).pc.IsPresent (resolve d getenv options).port
                  w.state).2).1.isSome
              then [] else [Event.InitClient (resolve d getenv options).port])) := by
  unfold New
  generalize resolve d getenv options = cfg
  simp only [Emulator.start, Emulator.initClient, World.record]
  cases hp : (cfg.pc.IsPresent cfg.port w.state).1 with
  | true =>
    cases hc : (cfg.ci.InitClient cfg.port (cfg.pc.IsPresent cfg.port w.state).2).1.2 with
    | some err => simp [hc]
    | none => simp [hc]
  | false =>
    cases hx : (cfg.et.Execute "java"
        ["-Djava.library.path=" ++ cfg.libPath, "-jar", cfg.jarPath, "-port",
         Itoa cfg.port, "-sharedDb", "-inMemory"] (cfg.pc.IsPresent cfg.port w.state).2).1 with
    | some err => simp
    | none =>
      cases hc : (cfg.ci.InitClient cfg.port (cfg.et.Execute "java"
        ["-Djava.library.path=" ++ cfg.libPath, "-jar", cfg.jarPath, "-port",
         Itoa cfg.port, "-sharedDb", "-inMemory"]
          (cfg.pc.IsPresent cfg.port w.state).2).2).1.2 with
      | some err => simp [hc]
      | none => simp [hc]

/-! ## C1 -/

/-- C1: whatever configuration `New` resolves (port, libPath, jarPath), when
the presence checker answers "not present" the calls `New` makes are the
presence check, then `Execute` with name "java" and exactly the arguments
"-Djava.library.path=" ++ libPath, "-jar", jarPath, "-port", the decimal
port, "-sharedDb", "-inMemory" in that order (followed by `InitClient` when
`Execute` gave no error); and when no option edits the port, the decimal port
is "8000". -/
theorem C1_execute_arguments {κ σ : Type} (d : Defaults κ σ) (getenv : String → String)
    (options : List (EmulatorOption κ σ)) (w : World κ σ)
    (h : ((resolve d getenv options).pc.IsPresent (resolve d getenv options).port
      w.state).1 = false) :
    (New d getenv options w).2.trace =
        w.trace ++
          [Event.IsPresent (resolve d getenv options).port,
           Event.Execute "java"
            ["-Djava.library.path=" ++ (resolve d getenv options).libPath, "-jar",
             (resolve d getenv options).jarPath, "-port",
             Itoa (resolve d getenv options).port, "-sharedDb", "-inMemory"]] ++
          (if ((resolve d getenv options).et.Execute "java"
              ["-Djava.library.path=" ++ (resolve d getenv options).libPath, "-jar",
               (resolve d getenv options).jarPath, "-port",
               Itoa (resolve d getenv options).port, "-sharedDb", "-inMemory"]
              ((resolve d getenv options).pc.IsPresent (resolve d getenv options).port
                w.state).2).1.isSome
            then [] else [Event.InitClient (resolve d getenv options).port]) ∧
      ((∀ o ∈ options, ∀ e : Emulator κ σ, (o e).port = e.port) →
        Itoa (resolve d getenv options).port = "8000") := by
  constructor
  · unfold New
    generalize resolve d getenv options = cfg at h ⊢
    simp only [Emulator.start, Emulator.initClient, World.record, h]
    cases hx : (cfg.et.Execute "java"
        ["-Djava.library.path=" ++ cfg.libPath, "-jar", cfg.jarPath, "-port",
         Itoa cfg.port, "-sharedDb", "-inMemory"] (cfg.pc.IsPresent cfg.port w.state).2).1 with
    | some err => simp
    | none =>
      cases hc : (cfg.ci.InitClient cfg.port (cfg.et.Execute "java"
        ["-Djava.library.path=" ++ cfg.libPath, "-jar", cfg.jarPath, "-port",
         Itoa cfg.port, "-sharedDb", "-inMemory"]
          (cfg.pc.IsPresent cfg.port w.state).2).2).1.2 with
      | some err => simp [hc]
      | none => simp [hc]
  · intro hp
    have : (resolve d getenv options).port = 8000 := by
      unfold resolve
      exact foldl_port options hp _
    rw [this]
    exact Itoa_8000

/-- The run of `TestInitDefaults`: the two paths come from the environment,
no option edits the port, nothing is listening. -/
theorem C1_execute_arguments_witness :
    ((resolve fixedDefaults testEnv
        [CustomExecutorTerminator (fixedSupervisor none none),
         CustomPresenceChecker (fixedPresence false)]).pc.IsPresent 8000 0).1 = false ∧
    (New fixedDefaults testEnv
        [CustomExecutorTerminator (fixedSupervisor none none),
         CustomPresenceChecker (fixedPresence false)] (World.init 0)).2.trace =
      [Event.IsPresent 8000,
       Event.Execute "java"
        ["-Djava.library.path=test_lib_path", "-jar", "test_jar_path", "-port", "8000",
         "-sharedDb", "-inMemory"],
       Event.InitClient 8000] :=
  ⟨rfl,
   (C1_execute_arguments fixedDefaults testEnv
      [CustomExecutorTerminator (fixedSupervisor none none),
       CustomPresenceChecker (fixedPresence false)] (World.init 0) rfl).1.trans (by decide)⟩

/-! ## C2 -/

/-- C2 (the code departs from the claim): on the definition of
`TestRunnerCreatesTableCorrectly` (no top-level policy, one index "GSI"
without a policy) `Runner` hands `CreateTable` a definition whose top-level
policy is read=1, write=1 but whose index still has no policy, which is not
the input the test expects. -/
theorem C2_index_policy_left_unset :
    (testEmulator.Runner (fixedApi none none) TB.fresh testTableInput passingBody
        (World.init 0)).world.trace =
      [Event.Generate,
       Event.CreateTable 7
        { AttributeDefinitions := []
          BillingMode := none
          GlobalSecondaryIndexes :=
            [{ IndexName := some "GSI", KeySchema := [], ProvisionedThroughput := none }]
          KeySchema := []
          ProvisionedThroughput :=
            some { ReadCapacityUnits := some 1, WriteCapacityUnits := some 1 }
          TableName := some "test_name" },
       Event.Body (some 7) "test_name"] ∧
    (testEmulator.Runner (fixedApi none none) TB.fresh testTableInput passingBody
        (World.init 0)).world.trace ≠
      [Event.Generate, Event.CreateTable 7 expCreateTableInput,
       Event.Body (some 7) "test_name"] := by
  decide

/-! ## Lemmas shared by the theorems on `Runner` -/

/-- The world after the registered cleanup ran: one `DeleteTable` call, on
the stored client, for the generated name. -/
theorem Cleanup_run_world {κ σ : Type} (api : κ → DynamoDBAPI σ) (e : Emulator κ σ)
    (n : String) (client : κ) (hc : e.client = some client) (t2 : TB κ σ) (w2 : World κ σ) :
    (Cleanup.run api { e := e, tableName := n } t2 w2).2.2 =
      w2.record (Event.DeleteTable client { TableName := some n })
        ((api client).DeleteTable { TableName := some n } w2.state).2 := by
  simp only [Cleanup.run, hc]
  cases ((api client).DeleteTable { TableName := some n } w2.state).1 <;> rfl

/-- The registered cleanup when the deletion succeeds: it returns and leaves
the test handle alone. -/
theorem Cleanup_run_ok {κ σ : Type} (api : κ → DynamoDBAPI σ) (e : Emulator κ σ)
    (n : String) (client : κ) (hc : e.client = some client) (t2 : TB κ σ) (w2 : World κ σ)
    (hdel : ((api client).DeleteTable { TableName := some n } w2.state).1 = none) :
    (Cleanup.run api { e := e, tableName := n } t2 w2).1 = Exit.returned ∧
      (Cleanup.run api { e := e, tableName := n } t2 w2).2.1 = t2 := by
  simp only [Cleanup.run, hc, hdel, and_self]

/-- The registered cleanup when the deletion fails: `Fatalf`. -/
theorem Cleanup_run_err {κ σ : Type} (api : κ → DynamoDBAPI σ) (e : Emulator κ σ)
    (n : String) (client : κ) (hc : e.client = some client) (t2 : TB κ σ) (w2 : World κ σ)
    (err : GoError)
    (hdel : ((api client).DeleteTable { TableName := some n } w2.state).1 = some err) :
    (Cleanup.run api { e := e, tableName := n } t2 w2).1 = Exit.goexit ∧
      (Cleanup.run api { e := e, tableName := n } t2 w2).2.1 =
        t2.Fatalf ("failed to delete table: " ++ err.Error) := by
  simp only [Cleanup.run, hc, hdel, and_self]

/-- The end of a test on which one cleanup is registered: that cleanup runs
once, on a handle whose list is empty. -/
theorem runCleanup_single {κ σ : Type} (api : κ → DynamoDBAPI σ) (t : TB κ σ)
    (c : Cleanup κ σ) (h : t.cleanups = [c]) (w : World κ σ) :
    t.runCleanup api w =
      ((c.run api { t with cleanups := [] } w).2.1,
        (c.run api { t with cleanups := [] } w).2.2) := by
  simp only [TB.runCleanup, h, List.reverse_cons, List.reverse_nil, List.nil_append,
    runCleanupList]

/-- The result of `Runner` when generation and creation succeed. -/
theorem Runner_reaches_body {κ σ : Type} (api : κ → DynamoDBAPI σ) (e : Emulator κ σ)
    (t : TB κ σ) (tableDef : CreateTableInput) (f : Option κ → String → σ → BodyResult × σ)
    (w : World κ σ) (n : String) (client : κ) (s1 s2 : σ)
    (hgen : e.tng.Generate w.state = ((n, none), s1))
    (hc : e.client = some client)
    (hcreate : (api client).CreateTable
        { tableDef with
          TableName := some n
          ProvisionedThroughput :=
            some (tableDef.ProvisionedThroughput.getD
              { ReadCapacityUnits := some 1, WriteCapacityUnits := some 1 }) } s1 =
        (none, s2)) :
    ∃ x b, e.Runner api t tableDef f w =
      { exit := x
        t := { failed := b, logs := t.logs,
               cleanups := t.cleanups ++ [{ e := e, tableName := n }] }
        tableDef :=
          { tableDef with
          TableName := some n
          ProvisionedThroughput :=
            some (tableDef.ProvisionedThroughput.getD
              { ReadCapacityUnits := some 1, WriteCapacityUnits := some 1 }) }
        world :=
          { state := (f (some client) n s2).2
            trace := w.trace ++
              [Event.Generate,
               Event.CreateTable client
                { tableDef with
          TableName := some n
          ProvisionedThroughput :=
            some (tableDef.ProvisionedThroughput.getD
              { ReadCapacityUnits := some 1, WriteCapacityUnits := some 1 }) },
               Event.Body (some client) n] } } := by
  unfold Emulator.Runner
  rcases tableDef with ⟨a, b, g, k, p, tn⟩
  cases p <;> simp only [Option.getD_none, Option.getD_some] at hcreate ⊢ <;>
    simp only [hgen, hc, World.record, hcreate, TB.Cleanup] <;>
    cases (f (some client) n s2).1 <;> simp

/-! ## C3 -/

/-- C3: when name generation gives `n` without error and `CreateTable`
succeeds on the stored client, the calls `Runner` makes are exactly
`Generate`, then one `CreateTable` whose input is the caller's definition
with `TableName` set to `n` whatever it was (and the default top-level
policy filled in when unset), then one call of the body with the stored client
and `n`, made before `Runner` ends; the caller's definition is the one handed to
`CreateTable`; one cleanup is registered, and running it makes exactly one
`DeleteTable` call whose `TableName` is `n`, which passes when the deletion
succeeds. -/
theorem C3_runner_effects {κ σ : Type} (api : κ → DynamoDBAPI σ) (e : Emulator κ σ)
    (t : TB κ σ) (tableDef : CreateTableInput) (f : Option κ → String → σ → BodyResult × σ)
    (w : World κ σ) (n : String) (client : κ) (s1 s2 : σ)
    (hgen : e.tng.Generate w.state = ((n, none), s1))
    (hclient : e.Client = some client)
    (hcreate : (api client).CreateTable
        { tableDef with
          TableName := some n
          ProvisionedThroughput :=
            some (tableDef.ProvisionedThroughput.getD
              { ReadCapacityUnits := some 1, WriteCapacityUnits := some 1 }) } s1 =
        (none, s2)) :
    (e.Runner api t tableDef f w).world.trace =
        w.trace ++
          [Event.Generate,
           Event.CreateTable client
            { tableDef with
          TableName := some n
          ProvisionedThroughput :=
            some (tableDef.ProvisionedThroughput.getD
              { ReadCapacityUnits := some 1, WriteCapacityUnits := some 1 }) },
           Event.Body e.Client n] ∧
      (e.Runner api t tableDef f w).world.state = (f e.Client n s2).2 ∧
      (e.Runner api t tableDef f w).tableDef =
        { tableDef with
          TableName := some n
          ProvisionedThroughput :=
            some (tableDef.ProvisionedThroughput.getD
              { ReadCapacityUnits := some 1, WriteCapacityUnits := some 1 }) } ∧
      (e.Runner api t tableDef f w).t.cleanups = t.cleanups ++ [{ e := e, tableName := n }] ∧
      (∀ (t2 : TB κ σ) (w2 : World κ σ),
        (Cleanup.run api { e := e, tableName := n } t2 w2).2.2 =
          w2.record (Event.DeleteTable client { TableName := some n })
            ((api client).DeleteTable { TableName := some n } w2.state).2) ∧
      (∀ (t2 : TB κ σ) (w2 : World κ σ),
        ((api client).DeleteTable { TableName := some n } w2.state).1 = none →
          (Cleanup.run api { e := e, tableName := n } t2 w2).1 = Exit.returned ∧
          (Cleanup.run api { e := e, tableName := n } t2 w2).2.1 = t2) ∧
      (t.cleanups = [] →
        ((e.Runner api t tableDef f w).t.runCleanup api
            (e.Runner api t tableDef f w).world).2.trace =
          w.trace ++
            [Event.Generate,
             Event.CreateTable client
              { tableDef with
          TableName := some n
          ProvisionedThroughput :=
            some (tableDef.ProvisionedThroughput.getD
              { ReadCapacityUnits := some 1, WriteCapacityUnits := some 1 }) },
             Event.Body e.Client n,
             Event.DeleteTable client { TableName := some n }]) := by
  have hc : e.client = some client := hclient
  obtain ⟨x, b, hR⟩ := Runner_reaches_body api e t tableDef f w n client s1 s2 hgen hc hcreate
  simp only [Emulator.Client, hc]
  refine ⟨by rw [hR], by rw [hR], by rw [hR], by rw [hR], Cleanup_run_world api e n client hc,
    fun t2 w2 hdel => Cleanup_run_ok api e n client hc t2 w2 hdel, ?_⟩
  intro ht
  rw [hR, runCleanup_single api _ { e := e, tableName := n } (by simp [ht])]
  simp only [Cleanup_run_world api e n client hc, World.record, List.append_assoc,
    List.cons_append, List.nil_append]

/-- The run of `TestRunnerDeletesTableCorrectly` on a definition that came
with a name of its own: generate, create under the generated name, body,
and at the end of the test one deletion of the generated name. -/
theorem C3_runner_effects_witness :
    testEmulator.tng.Generate 0 = (("test_name", none), 1) ∧
    testEmulator.Client = some 7 ∧
    ((testEmulator.Runner (fixedApi none none) TB.fresh namedTableInput passingBody
          (World.init 0)).t.runCleanup (fixedApi none none)
        (testEmulator.Runner (fixedApi none none) TB.fresh namedTableInput passingBody
          (World.init 0)).world).2.trace =
      [Event.Generate,
       Event.CreateTable 7
        { AttributeDefinitions := []
          BillingMode := none
          GlobalSecondaryIndexes :=
            [{ IndexName := some "GSI", KeySchema := [], ProvisionedThroughput := none }]
          KeySchema := []
          ProvisionedThroughput :=
            some { ReadCapacityUnits := some 1, WriteCapacityUnits := some 1 }
          TableName := some "test_name" },
       Event.Body (some 7) "test_name",
       Event.DeleteTable 7 { TableName := some "test_name" }] :=
  ⟨rfl, rfl,
   ((C3_runner_effects (fixedApi none none) testEmulator TB.fresh namedTableInput passingBody
      (World.init 0) "test_name" 7 1 2 rfl rfl rfl).2.2.2.2.2.2 rfl).trans (by decide)⟩

/-! ## C4 -/

/-- C4 as stated fails: when name generation fails, `Runner` stops before
`t.Cleanup` and no cleanup action is registered on the test handle. -/
theorem C4_no_cleanup_when_generation_fails :
    (noNameEmulator.Runner (fixedApi none none) TB.fresh testTableInput passingBody
        (World.init 0)).t.cleanups.length = 0 ∧
    (noNameEmulator.Runner (fixedApi none none) TB.fresh testTableInput passingBody
        (World.init 0)).exit = Exit.goexit ∧
    (noNameEmulator.Runner (fixedApi none none) TB.fresh testTableInput passingBody
        (World.init 0)).world.trace = [Event.Generate] := by
  decide

/-- C4, amended: in every `Runner` invocation that gets as far as the body
(name generation and `CreateTable` succeeded on the stored client), exactly
one cleanup action is registered on the test handle, whatever the body does,
failing included; at the end of the test it is run once, making one
`DeleteTable` call for the generated name; and when that deletion fails the
cleanup marks the test failed with `Fatalf`. -/
theorem C4_cleanup_registered_once {κ σ : Type} (api : κ → DynamoDBAPI σ) (e : Emulator κ σ)
    (t : TB κ σ) (tableDef : CreateTableInput) (f : Option κ → String → σ → BodyResult × σ)
    (w : World κ σ) (n : String) (client : κ) (s1 s2 : σ)
    (hgen : e.tng.Generate w.state = ((n, none), s1))
    (hclient : e.Client = some client)
    (hcreate : (api client).CreateTable
        { tableDef with
          TableName := some n
          ProvisionedThroughput :=
            some (tableDef.ProvisionedThroughput.getD
              { ReadCapacityUnits := some 1, WriteCapacityUnits := some 1 }) } s1 =
        (none, s2)) :
    (e.Runner api t tableDef f w).t.cleanups = t.cleanups ++ [{ e := e, tableName := n }] ∧
      (e.Runner api t tableDef f w).t.cleanups.length = t.cleanups.length + 1 ∧
      (t.cleanups = [] →
        ∀ w2 : World κ σ,
          ((e.Runner api t tableDef f w).t.runCleanup api w2).2.trace =
              w2.trace ++ [Event.DeleteTable client { TableName := some n }] ∧
            ((e.Runner api t tableDef f w).t.runCleanup api w2).1.cleanups = [] ∧
            ∀ err : GoError,
              ((api client).DeleteTable { TableName := some n } w2.state).1 = some err →
                ((e.Runner api t tableDef f w).t.runCleanup api w2).1.failed = true) ∧
      (∀ (t2 : TB κ σ) (w2 : World κ σ) (err : GoError),
        ((api client).DeleteTable { TableName := some n } w2.state).1 = some err →
          (Cleanup.run api { e := e, tableName := n } t2 w2).1 = Exit.goexit ∧
          (Cleanup.run api { e := e, tableName := n } t2 w2).2.1 =
            t2.Fatalf ("failed to delete table: " ++ err.Error) ∧
          (Cleanup.run api { e := e, tableName := n } t2 w2).2.1.failed = true) := by
  have hc : e.client = some client := hclient
  obtain ⟨x, b, hR⟩ := Runner_reaches_body api e t tableDef f w n client s1 s2 hgen hc hcreate
  refine ⟨by rw [hR], by rw [hR]; simp, ?_, ?_⟩
  · intro ht w2
    rw [hR, runCleanup_single api _ { e := e, tableName := n } (by simp [ht])]
    refine ⟨?_, ?_, ?_⟩
    · simp only [Cleanup_run_world api e n client hc, World.record]
    · cases hd : ((api client).DeleteTable { TableName := some n } w2.state).1 with
      | none => simp only [(Cleanup_run_ok api e n client hc _ w2 hd).2]
      | some err => simp only [(Cleanup_run_err api e n client hc _ w2 err hd).2, TB.Fatalf]
    · intro err hd
      simp only [(Cleanup_run_err api e n client hc _ w2 err hd).2, TB.Fatalf]
  · intro t2 w2 err hd
    have h := Cleanup_run_err api e n client hc t2 w2 err hd
    exact ⟨h.1, h.2, by rw [h.2]; rfl⟩

/-- A run whose body fails the test and whose deletion then fails as well:
one cleanup is registered all the same, it makes the one `DeleteTable` call,
and the test is marked failed by it. -/
theorem C4_cleanup_registered_once_witness :
    testEmulator.tng.Generate 0 = (("test_name", none), 1) ∧
    (testEmulator.Runner (fixedApi none (some { Error := "gone" })) TB.fresh testTableInput
        failingBody (World.init 0)).t.cleanups.length = 1 ∧
    ((testEmulator.Runner (fixedApi none (some { Error := "gone" })) TB.fresh testTableInput
        failingBody (World.init 0)).t.runCleanup (fixedApi none (some { Error := "gone" }))
          (World.init 3)).2.trace = [Event.DeleteTable 7 { TableName := some "test_name" }] ∧
    ((testEmulator.Runner (fixedApi none (some { Error := "gone" })) TB.fresh testTableInput
        failingBody (World.init 0)).t.runCleanup (fixedApi none (some { Error := "gone" }))
          (World.init 3)).1.failed = true :=
  ⟨rfl,
   (C4_cleanup_registered_once (fixedApi none (some { Error := "gone" })) testEmulator TB.fresh
      testTableInput failingBody (World.init 0) "test_name" 7 1 2 rfl rfl rfl).2.1,
   ((C4_cleanup_registered_once (fixedApi none (some { Error := "gone" })) testEmulator TB.fresh
      testTableInput failingBody (World.init 0) "test_name" 7 1 2 rfl rfl rfl).2.2.1 rfl
        (World.init 3)).1,
   ((C4_cleanup_registered_once (fixedApi none (some { Error := "gone" })) testEmulator TB.fresh
      testTableInput failingBody (World.init 0) "test_name" 7 1 2 rfl rfl rfl).2.2.1 rfl
        (World.init 3)).2.2 { Error := "gone" } rfl⟩

/-! ## C5 -/

/-- C5: `Runner` fails fast. When `Generate` gives an error, `Runner` stops
at once with `Fatalf` (the test is marked failed) having called nothing but
`Generate`: no `CreateTable`, no body. When `CreateTable` gives an error,
`Runner` stops at once with `Fatalf` having called `Generate` and
`CreateTable` once each and not the body. In every invocation `Generate` is
called once and `CreateTable` at most once: nothing is retried. -/
theorem C5_runner_fails_fast {κ σ : Type} (api : κ → DynamoDBAPI σ) (e : Emulator κ σ)
    (t : TB κ σ) (tableDef : CreateTableInput) (f : Option κ → String → σ → BodyResult × σ)
    (w : World κ σ) :
    (∀ (n : String) (err : GoError) (s1 : σ),
        e.tng.Generate w.state = ((n, some err), s1) →
          (e.Runner api t tableDef f w).exit = Exit.goexit ∧
          (e.Runner api t tableDef f w).t =
            t.Fatalf ("failed to generate table name: " ++ err.Error) ∧
          (e.Runner api t tableDef f w).t.failed = true ∧
          (e.Runner api t tableDef f w).world.trace = w.trace ++ [Event.Generate] ∧
          (e.Runner api t tableDef f w).world.state = s1) ∧
      (∀ (n : String) (client : κ) (err : GoError) (s1 s2 : σ),
        e.tng.Generate w.state = ((n, none), s1) →
        e.Client = some client →
        (api client).CreateTable
          { tableDef with
            TableName := some n
            ProvisionedThroughput :=
              some (tableDef.ProvisionedThroughput.getD
                { ReadCapacityUnits := some 1, WriteCapacityUnits := some 1 }) } s1 = (some err, s2) →
          (e.Runner api t tableDef f w).exit = Exit.goexit ∧
          (e.Runner api t tableDef f w).t = t.Fatalf ("failed to create table: " ++ err.Error) ∧
          (e.Runner api t tableDef f w).t.failed = true ∧
          (e.Runner api t tableDef f w).world.trace =
            w.trace ++
              [Event.Generate,
               Event.CreateTable client
                { tableDef with
            TableName := some n
            ProvisionedThroughput :=
              some (tableDef.ProvisionedThroughput.getD
                { ReadCapacityUnits := some 1, WriteCapacityUnits := some 1 }) }] ∧
          (e.Runner api t tableDef f w).world.state = s2) ∧
      (∃ evs : List (Event κ),
        (e.Runner api t tableDef f w).world.trace = w.trace ++ evs ∧
          evs.countP Event.isGenerate = 1 ∧
          evs.countP Event.isCreateTable ≤ 1 ∧
          evs.countP Event.isBody ≤ 1) := by
  refine ⟨?_, ?_, ?_⟩
  · intro n err s1 hgen
    simp only [Emulator.Runner, hgen, World.record, TB.Fatalf, and_self]
  · intro n client err s1 s2 hgen hclient hcreate
    have hc : e.client = some client := hclient
    unfold Emulator.Runner
    rcases tableDef with ⟨a, b, g, k, p, tn⟩
    cases p <;> simp only [Option.getD_none, Option.getD_some] at hcreate ⊢ <;>
      simp only [hgen, hc, World.record, hcreate, TB.Fatalf, List.append_assoc,
        List.cons_append, List.nil_append, and_self]
  · unfold Emulator.Runner
    simp only [World.record, List.append_assoc, List.cons_append, List.nil_append]
    repeat' split
    all_goals
      exact ⟨_, rfl, by simp [Event.isGenerate], by simp [Event.isCreateTable],
        by simp [Event.isBody]⟩

/-- Two failing runs: a generator that fails (only `Generate` is called), and
a `CreateTable` that fails (`Generate`, `CreateTable`, no body); both mark
the test failed. -/
theorem C5_runner_fails_fast_witness :
    noNameEmulator.tng.Generate 0 = (("", some { Error := "no entropy" }), 1) ∧
    (noNameEmulator.Runner (fixedApi none none) TB.fresh testTableInput passingBody
        (World.init 0)).world.trace = [Event.Generate] ∧
    (noNameEmulator.Runner (fixedApi none none) TB.fresh testTableInput passingBody
        (World.init 0)).t.failed = true ∧
    (testEmulator.Runner (fixedApi (some { Error := "exists" }) none) TB.fresh testTableInput
        passingBody (World.init 0)).world.trace =
      [Event.Generate,
       Event.CreateTable 7
        { AttributeDefinitions := []
          BillingMode := none
          GlobalSecondaryIndexes :=
            [{ IndexName := some "GSI", KeySchema := [], ProvisionedThroughput := none }]
          KeySchema := []
          ProvisionedThroughput :=
            some { ReadCapacityUnits := some 1, WriteCapacityUnits := some 1 }
          TableName := some "test_name" }] ∧
    (testEmulator.Runner (fixedApi (some { Error := "exists" }) none) TB.fresh testTableInput
        passingBody (World.init 0)).t.failed = true :=
  ⟨rfl,
   ((C5_runner_fails_fast (fixedApi none none) noNameEmulator TB.fresh testTableInput
      passingBody (World.init 0)).1 "" { Error := "no entropy" } 1 rfl).2.2.2.1,
   ((C5_runner_fails_fast (fixedApi none none) noNameEmulator TB.fresh testTableInput
      passingBody (World.init 0)).1 "" { Error := "no entropy" } 1 rfl).2.2.1,
   ((C5_runner_fails_fast (fixedApi (some { Error := "exists" }) none) testEmulator TB.fresh
      testTableInput passingBody (World.init 0)).2.1 "test_name" 7 { Error := "exists" } 1 2
        rfl rfl rfl).2.2.2.1,
   ((C5_runner_fails_fast (fixedApi (some { Error := "exists" }) none) testEmulator TB.fresh
      testTableInput passingBody (World.init 0)).2.1 "test_name" 7 { Error := "exists" } 1 2
        rfl rfl rfl).2.2.1⟩

/-! ## C6 -/

/-- C6: the calls `New` makes start with one `IsPresent` call on the
configured port, there is no second one, and every `Execute` call comes
after it; `Execute` is called once when the answer was "not present" and not
at all when it was "present", in which case the only further call is
`InitClient`. -/
theorem C6_presence_checked_once {κ σ : Type} (d : Defaults κ σ) (getenv : String → String)
    (options : List (EmulatorOption κ σ)) (w : World κ σ) :
    ∃ rest : List (Event κ),
      (New d getenv options w).2.trace =
          w.trace ++ Event.IsPresent (resolve d getenv options).port :: rest ∧
        rest.countP Event.isIsPresent = 0 ∧
        rest.countP Event.isExecute =
          (if ((resolve d getenv options).pc.IsPresent (resolve d getenv options).port
              w.state).1 then 0 else 1) ∧
        (if ((resolve d getenv options).pc.IsPresent (resolve d getenv options).port
              w.state).1
          then rest = [Event.InitClient (resolve d getenv options).port]
          else ∃ tail : List (Event κ),
            rest = Event.Execute "java"
                ["-Djava.library.path=" ++ (resolve d getenv options).libPath, "-jar",
                 (resolve d getenv options).jarPath, "-port",
                 Itoa (resolve d getenv options).port, "-sharedDb", "-inMemory"] :: tail ∧
              tail.countP Event.isExecute = 0) := by
  refine ⟨_, New_trace d getenv options w, ?_⟩
  generalize resolve d getenv options = cfg
  cases hp : (cfg.pc.IsPresent cfg.port w.state).1 with
  | true => simp [Event.isIsPresent, Event.isExecute]
  | false =>
    cases hx : (cfg.et.Execute "java"
        ["-Djava.library.path=" ++ cfg.libPath, "-jar", cfg.jarPath, "-port",
         Itoa cfg.port, "-sharedDb", "-inMemory"] (cfg.pc.IsPresent cfg.port w.state).2).1 with
    | some err => simp [Event.isIsPresent, Event.isExecute]
    | none => simp [Event.isIsPresent, Event.isExecute]

/-! ## C7 -/

/-- C7: when `CustomPort p` is the last option of the list that edits the
port, the resolved port is `p`, and `New` passes `p` to `IsPresent`, to
`InitClient`, and as the text after "-port" to `Execute`, in every call of
these it makes. Options are applied over the defaults in the order given (an
option appended to the list is applied to the result of the others, so a
later `CustomPort` wins), and with no option editing the port it is 8000. -/
theorem C7_custom_port {κ σ : Type} (d : Defaults κ σ) (getenv : String → String)
    (pre post : List (EmulatorOption κ σ)) (p : Int) (w : World κ σ) (cfg : Emulator κ σ)
    (hcfg : cfg = resolve d getenv (pre ++ CustomPort p :: post))
    (hpost : ∀ o ∈ post, ∀ e : Emulator κ σ, (o e).port = e.port) :
    cfg.port = p ∧
      (New d getenv (pre ++ CustomPort p :: post) w).2.trace =
        w.trace ++ Event.IsPresent p ::
          (if (cfg.pc.IsPresent p w.state).1
            then [Event.InitClient p]
            else
              Event.Execute "java"
                ["-Djava.library.path=" ++ cfg.libPath, "-jar", cfg.jarPath, "-port", Itoa p,
                 "-sharedDb", "-inMemory"] ::
              (if (cfg.et.Execute "java"
                  ["-Djava.library.path=" ++ cfg.libPath, "-jar", cfg.jarPath, "-port", Itoa p,
                 "-sharedDb", "-inMemory"]
                  (cfg.pc.IsPresent p w.state).2).1.isSome
                then [] else [Event.InitClient p])) ∧
      (∀ (options : List (EmulatorOption κ σ)) (o : EmulatorOption κ σ),
        resolve d getenv (options ++ [o]) = o (resolve d getenv options)) ∧
      (∀ (options : List (EmulatorOption κ σ)) (q : Int),
        (resolve d getenv (options ++ [CustomPort p, CustomPort q])).port = q) ∧
      (∀ options : List (EmulatorOption κ σ),
        (∀ o ∈ options, ∀ e : Emulator κ σ, (o e).port = e.port) →
          (resolve d getenv options).port = 8000) := by
  have hport : cfg.port = p := by
    rw [hcfg]
    unfold resolve
    rw [List.foldl_append, List.foldl_cons, foldl_port post hpost]
    rfl
  refine ⟨hport, ?_, ?_, ?_, ?_⟩
  · rw [New_trace, ← hcfg, hport]
  · intro options o
    simp only [resolve, List.foldl_append, List.foldl_cons, List.foldl_nil]
  · intro options q
    simp only [resolve, List.foldl_append, List.foldl_cons, List.foldl_nil, CustomPort]
  · intro options h
    unfold resolve
    exact foldl_port options h _

/-- The run of `TestInitCustomPort` with an earlier port option and a later
option on another field: port 8888 reaches the presence check, the launch
arguments and the client factory. -/
theorem C7_custom_port_witness :
    (New fixedDefaults testEnv
        ([CustomExecutorTerminator (fixedSupervisor none none),
          CustomPresenceChecker (fixedPresence false),
          CustomClientInitializer (fixedFactory none none),
          CustomPort 9999] ++ CustomPort 8888 :: [CustomLibPath "lib"])
        (World.init 0)).2.trace =
      [Event.IsPresent 8888,
       Event.Execute "java"
        ["-Djava.library.path=lib", "-jar", "test_jar_path", "-port", "8888",
         "-sharedDb", "-inMemory"],
       Event.InitClient 8888] :=
  (C7_custom_port fixedDefaults testEnv
      [CustomExecutorTerminator (fixedSupervisor none none),
       CustomPresenceChecker (fixedPresence false),
       CustomClientInitializer (fixedFactory none none),
       CustomPort 9999] [CustomLibPath "lib"] 8888 (World.init 0) _ rfl
      (fun o ho e => by rw [List.mem_singleton.mp ho]; rfl)).2.1.trans (by decide)

/-! ## C8 -/

/-- C8: construction errors come back unchanged. When nothing is present and
`Execute` gives an error, `New` returns that error and no emulator, and the
only calls were `IsPresent` and `Execute` (no `InitClient`). When the start
step succeeds and `InitClient` gives an error, `New` returns that error and
no emulator. `New` returns an emulator only when both steps gave no error,
the error it returns with it is nil, and `Client` of that emulator is the
client `InitClient` returned; and when both steps give no error it does
return one. -/
theorem C8_construction_errors {κ σ : Type} (d : Defaults κ σ) (getenv : String → String)
    (options : List (EmulatorOption κ σ)) (w : World κ σ) (cfg : Emulator κ σ)
    (hcfg : cfg = resolve d getenv options) :
    (∀ err : GoError,
        (cfg.pc.IsPresent cfg.port w.state).1 = false →
        (cfg.et.Execute "java"
            ["-Djava.library.path=" ++ cfg.libPath, "-jar", cfg.jarPath, "-port", Itoa cfg.port,
             "-sharedDb", "-inMemory"]
            (cfg.pc.IsPresent cfg.port w.state).2).1 = some err →
          (New d getenv options w).1 = (none, some err) ∧
          (New d getenv options w).2.trace =
            w.trace ++
              [Event.IsPresent cfg.port,
               Event.Execute "java"
                ["-Djava.library.path=" ++ cfg.libPath, "-jar", cfg.jarPath, "-port", Itoa cfg.port,
             "-sharedDb", "-inMemory"]]) ∧
      (∀ err : GoError,
        (cfg.start w).1 = none →
        (cfg.ci.InitClient cfg.port (cfg.start w).2.state).1.2 = some err →
          (New d getenv options w).1 = (none, some err)) ∧
      (∀ ddb : Emulator κ σ,
        (New d getenv options w).1.1 = some ddb →
          (New d getenv options w).1.2 = none ∧
          (cfg.start w).1 = none ∧
          (cfg.ci.InitClient cfg.port (cfg.start w).2.state).1.2 = none ∧
          ddb.Client = (cfg.ci.InitClient cfg.port (cfg.start w).2.state).1.1) ∧
      ((cfg.start w).1 = none →
        (cfg.ci.InitClient cfg.port (cfg.start w).2.state).1.2 = none →
          ∃ ddb : Emulator κ σ,
            (New d getenv options w).1 = (some ddb, none) ∧
            ddb.Client = (cfg.ci.InitClient cfg.port (cfg.start w).2.state).1.1) := by
  subst hcfg
  unfold New
  generalize resolve d getenv options = cfg
  refine ⟨?_, ?_, ?_, ?_⟩
  · intro err hp hx
    simp [Emulator.start, World.record, hp, hx]
  · intro err hs hi
    rcases hsw : cfg.start w with ⟨r, w1⟩
    rw [hsw] at hs hi
    simp only at hs hi
    subst hs
    simp [hsw, Emulator.initClient, World.record, hi]
  · intro ddb
    rcases hsw : cfg.start w with ⟨r, w1⟩
    cases r with
    | some err => simp [hsw]
    | none =>
      simp only [hsw]
      cases hi : (cfg.ci.InitClient cfg.port w1.state).1.2 with
      | some err => simp [Emulator.initClient, World.record, hi]
      | none =>
        simp only [Emulator.initClient, World.record, hi, Option.some.injEq, true_and]
        intro h
        rw [← h]
        rfl
  · intro hs hi
    rcases hsw : cfg.start w with ⟨r, w1⟩
    rw [hsw] at hs hi
    simp only at hs hi
    subst hs
    simp only [hsw, Emulator.initClient, World.record, hi]
    exact ⟨_, rfl, rfl⟩

/-- A launch that fails: `java` cannot be started, `New` returns that very
error, no emulator, and the client factory was not called. -/
theorem C8_construction_errors_witness :
    (New fixedDefaults testEnv
        [CustomExecutorTerminator (fixedSupervisor (some { Error := "exec: java not found" })
          none)] (World.init 0)).1.2 = some { Error := "exec: java not found" } ∧
    (New fixedDefaults testEnv
        [CustomExecutorTerminator (fixedSupervisor (some { Error := "exec: java not found" })
          none)] (World.init 0)).1.1.isNone = true ∧
    (New fixedDefaults testEnv
        [CustomExecutorTerminator (fixedSupervisor (some { Error := "exec: java not found" })
          none)] (World.init 0)).2.trace =
      [Event.IsPresent 8000,
       Event.Execute "java"
        ["-Djava.library.path=test_lib_path", "-jar", "test_jar_path", "-port", "8000",
         "-sharedDb", "-inMemory"]] :=
  ⟨congrArg Prod.snd
    ((C8_construction_errors fixedDefaults testEnv
      [CustomExecutorTerminator (fixedSupervisor (some { Error := "exec: java not found" })
        none)] (World.init 0) _ rfl).1 { Error := "exec: java not found" } rfl rfl).1,
   rfl,
   ((C8_construction_errors fixedDefaults testEnv
      [CustomExecutorTerminator (fixedSupervisor (some { Error := "exec: java not found" })
        none)] (World.init 0) _ rfl).1 { Error := "exec: java not found" } rfl rfl).2.trans
      (by decide)⟩

/-! ## C9 -/

/-- C9: for every `ExecutorTerminator`, `Close` makes exactly one call,
`Terminate`, returns the error or nil that `Terminate` returned, and leaves
the collaborators in the state `Terminate` left them in. -/
theorem C9_close_delegates {κ σ : Type} (e : Emulator κ σ) (w : World κ σ) :
    (e.Close w).1 = (e.et.Terminate w.state).1 ∧
      (e.Close w).2.trace = w.trace ++ [Event.Terminate] ∧
      (e.Close w).2.state = (e.et.Terminate w.state).2 := by
  unfold Emulator.Close
  cases h : (e.et.Terminate w.state).1 <;> simp [World.record, h]

/-! ## C10 -/

/-- The default `Terminate` with no tracked handle: nil, state untouched. -/
theorem Terminate_untracked {ω : Type} (sys : OS ω) (s : ExecState ω)
    (h : s.instance_ = none) : executorTerminator.Terminate sys s = (none, s) := by
  simp only [executorTerminator.Terminate, h]

/-- After a default `Terminate` that gave no error, no handle is tracked. -/
theorem Terminate_clears {ω : Type} (sys : OS ω) (s : ExecState ω)
    (h : (executorTerminator.Terminate sys s).1 = none) :
    (executorTerminator.Terminate sys s).2.instance_ = none := by
  unfold executorTerminator.Terminate at h ⊢
  cases hi : s.instance_ with
  | none => simp only [hi]
  | some cmd =>
    simp only [hi] at h ⊢
    cases hk : (sys.Kill cmd.pid s.os).1 with
    | none => simp only [hk]
    | some err => simp [hk] at h

/-- C10 as stated fails: `New()` launches the emulator with the default
supervisor, the kill signal cannot be delivered, and `Close` called twice in
succession returns the kill error the second time as well, since the handle
is kept when the kill fails. -/
theorem C10_second_close_errs_when_kill_fails :
    (launched stubbornOS).1.1.map
        (fun ddb =>
          ((ddb.Close (launched stubbornOS).2).1,
           (ddb.Close (ddb.Close (launched stubbornOS).2).2).1,
           (ddb.Close (ddb.Close (launched stubbornOS).2).2).2.state.instance_)) =
      some
        (some { Error := "operation not permitted" },
         some { Error := "operation not permitted" },
         some { name := "java",
                arg := ["-Djava.library.path=test_lib_path", "-jar", "test_jar_path", "-port",
                  "8000", "-sharedDb", "-inMemory"],
                pid := 4242 }) := by
  decide

/-- C10, amended: with the default process supervisor, a `Close` that
follows a `Close` which gave no error gives no error and changes nothing;
`Close` with no process tracked (none was started) gives no error and
changes nothing; `Terminate` with no tracked handle returns nil and leaves
the state unchanged; and a `Terminate` whose kill succeeded clears the
handle, so that a further `Terminate` returns nil and changes nothing. -/
theorem C10_close_idempotent {κ ω : Type} (sys : OS ω) (e : Emulator κ (ExecState ω))
    (he : e.et = NewExecutorTerminator sys) (w : World κ (ExecState ω)) :
    ((e.Close w).1 = none →
        (e.Close (e.Close w).2).1 = none ∧
        (e.Close (e.Close w).2).2.state = (e.Close w).2.state) ∧
      (w.state.instance_ = none → (e.Close w).1 = none ∧ (e.Close w).2.state = w.state) ∧
      (∀ o : ω,
        (NewExecutorTerminator sys).Terminate (executorTerminator.fresh o) =
          (none, executorTerminator.fresh o)) ∧
      (∀ s : ExecState ω,
        s.instance_ = none → (NewExecutorTerminator sys).Terminate s = (none, s)) ∧
      (∀ (s : ExecState ω) (cmd : Cmd) (o2 : ω),
        s.instance_ = some cmd → sys.Kill cmd.pid s.os = (none, o2) →
          (NewExecutorTerminator sys).Terminate s = (none, { instance_ := none, os := o2 }) ∧
          (NewExecutorTerminator sys).Terminate { instance_ := none, os := o2 } =
            (none, { instance_ := none, os := o2 })) := by
  have hclose : ∀ w2 : World κ (ExecState ω),
      (e.Close w2).1 = (executorTerminator.Terminate sys w2.state).1 ∧
      (e.Close w2).2.state = (executorTerminator.Terminate sys w2.state).2 := by
    intro w2
    unfold Emulator.Close
    rw [he]
    simp only [NewExecutorTerminator, World.record]
    cases h : (executorTerminator.Terminate sys w2.state).1 <;> simp [h]
  refine ⟨?_, ?_, ?_, ?_, ?_⟩
  · intro h1
    rw [(hclose w).1] at h1
    have hnone := Terminate_clears sys w.state h1
    rw [← (hclose w).2] at hnone
    rw [(hclose (e.Close w).2).1, (hclose (e.Close w).2).2,
      Terminate_untracked sys (e.Close w).2.state hnone]
    exact ⟨rfl, rfl⟩
  · intro h
    rw [(hclose w).1, (hclose w).2, Terminate_untracked sys _ h]
    exact ⟨rfl, rfl⟩
  · intro o
    exact Terminate_untracked sys (executorTerminator.fresh o) rfl
  · intro s h
    exact Terminate_untracked sys s h
  · intro s cmd o2 hs hk
    refine ⟨?_, Terminate_untracked sys { instance_ := none, os := o2 } rfl⟩
    simp only [NewExecutorTerminator, executorTerminator.Terminate, hs, hk]

/-- The emulator launched on an operating system that kills on demand: the
first `Close` kills the process, the second finds nothing tracked; neither
gives an error, and the second changes nothing. -/
theorem C10_close_idempotent_witness :
    ((supervisedEmulator kindOS).Close (launched kindOS).2).1 = none ∧
    ((supervisedEmulator kindOS).Close
        ((supervisedEmulator kindOS).Close (launched kindOS).2).2).1 = none ∧
    ((launched kindOS).2.state.instance_).isSome = true ∧
    (((supervisedEmulator kindOS).Close (launched kindOS).2).2.state.instance_).isNone = true :=
  ⟨by decide,
   ((C10_close_idempotent kindOS (supervisedEmulator kindOS) rfl (launched kindOS).2).1
      (by decide)).1,
   by decide, by decide⟩

/-! ## C11 -/

/-- A string has the prefix `pre` exactly when it is `pre` followed by some
string. -/
theorem HasPrefix_iff (s pre : String) : HasPrefix s pre = true ↔ ∃ t : String, s = pre ++ t := by
  unfold HasPrefix
  rw [List.isPrefixOf_iff_prefix]
  constructor
  · rintro ⟨l, hl⟩
    exact ⟨String.mk l, String.ext (by rw [String.data_append, hl])⟩
  · rintro ⟨t, ht⟩
    exact ⟨t.data, by rw [ht, String.data_append]⟩

/-- C11: the default presence check answers true exactly when the request
could be built and sent, the response has status 400, its body decodes
without error, and the decoded `__type` is "com.amazonaws.dynamodb" followed
by anything. Every other outcome (a request error, another status, a body
that does not decode, a `__type` that is empty or starts differently) gives
false; the result is always a boolean, and the `PresenceChecker` built by
`NewPresenceChecker` is this function. -/
theorem C11_presence_iff {ω : Type} (net : Net ω) (port : Int) (o : ω) :
    ((isPresent net port o).1 = true ↔
        ∃ (req : Request) (resp : Response) (respBody : RespBody) (rest : String),
          net.NewRequestWithContext "GET" ("http://localhost:" ++ Itoa port) = Except.ok req ∧
          (net.Do req o).1 = Except.ok resp ∧
          resp.StatusCode = 400 ∧
          net.Decode resp.Body = Except.ok respBody ∧
          respBody.Type_ = "com.amazonaws.dynamodb" ++ rest) ∧
      ((isPresent net port o).1 = false ↔
        ¬ ∃ (req : Request) (resp : Response) (respBody : RespBody) (rest : String),
          net.NewRequestWithContext "GET" ("http://localhost:" ++ Itoa port) = Except.ok req ∧
          (net.Do req o).1 = Except.ok resp ∧
          resp.StatusCode = 400 ∧
          net.Decode resp.Body = Except.ok respBody ∧
          respBody.Type_ = "com.amazonaws.dynamodb" ++ rest) ∧
      (NewPresenceChecker net).IsPresent port o = isPresent net port o := by
  have key : (isPresent net port o).1 = true ↔
      ∃ (req : Request) (resp : Response) (respBody : RespBody) (rest : String),
        net.NewRequestWithContext "GET" ("http://localhost:" ++ Itoa port) = Except.ok req ∧
        (net.Do req o).1 = Except.ok resp ∧
        resp.StatusCode = 400 ∧
        net.Decode resp.Body = Except.ok respBody ∧
        respBody.Type_ = "com.amazonaws.dynamodb" ++ rest := by
    unfold isPresent
    cases hreq : net.NewRequestWithContext "GET" ("http://localhost:" ++ Itoa port) with
    | error err => simp
    | ok req =>
      rcases hdo : net.Do req o with ⟨r, o1⟩
      cases r with
      | error err =>
        simp only [hdo, Bool.false_eq_true, false_iff]
        rintro ⟨req2, resp2, rb2, rest, h1, h2, -, -, -⟩
        cases h1
        rw [hdo] at h2
        cases h2
      | ok resp =>
        simp only [hdo]
        by_cases hst : resp.StatusCode = 400
        · cases hdec : net.Decode resp.Body with
          | error err =>
            simp only [hst, ne_eq, not_true_eq_false, if_false, Bool.false_eq_true, false_iff]
            rintro ⟨req2, resp2, rb2, rest, h1, h2, -, h4, -⟩
            cases h1
            rw [hdo] at h2
            cases h2
            rw [hdec] at h4
            cases h4
          | ok respBody =>
            by_cases hp : HasPrefix respBody.Type_ "com.amazonaws.dynamodb" = true
            · obtain ⟨rest, hrest⟩ := (HasPrefix_iff _ _).mp hp
              simp only [hst, hp, ne_eq, not_true_eq_false, if_false, Bool.not_true,
                Bool.false_eq_true, true_iff]
              exact ⟨req, resp, respBody, rest, rfl, by rw [hdo], hst, hdec, hrest⟩
            · have hp2 : HasPrefix respBody.Type_ "com.amazonaws.dynamodb" = false := by
                simpa using hp
              simp only [hst, hp2, ne_eq, not_true_eq_false, if_false, Bool.not_false, if_true,
                Bool.false_eq_true, false_iff]
              rintro ⟨req2, resp2, rb2, rest, h1, h2, -, h4, h5⟩
              cases h1
              rw [hdo] at h2
              cases h2
              rw [hdec] at h4
              cases h4
              exact hp ((HasPrefix_iff _ _).mpr ⟨rest, h5⟩)
        · simp only [ne_eq, hst, not_false_eq_true, if_true, Bool.false_eq_true, false_iff]
          rintro ⟨req2, resp2, rb2, rest, h1, h2, h3, -, -⟩
          cases h1
          rw [hdo] at h2
          cases h2
          exact hst h3
  refine ⟨key, ?_, rfl⟩
  rw [← key]
  cases (isPresent net port o).1 <;> simp

/-- The four test servers of `presence_checker_test.go` and four more
outcomes: only the 400 answer with the emulator's `__type` counts as present. -/
theorem C11_presence_iff_witness :
    ((NewPresenceChecker (stubNet (Except.ok { StatusCode := 400, Body := probeBody }))).IsPresent
        8000 0).1 = true ∧
    ((NewPresenceChecker (stubNet (Except.ok { StatusCode := 200, Body := probeBody }))).IsPresent
        8000 0).1 = false ∧
    ((NewPresenceChecker (stubNet (Except.ok { StatusCode := 400, Body := "" }))).IsPresent
        8000 0).1 = false ∧
    ((NewPresenceChecker (stubNet (Except.ok { StatusCode := 400, Body := "<html>" }))).IsPresent
        8000 0).1 = false ∧
    ((NewPresenceChecker (stubNet (Except.ok { StatusCode := 400, Body := untypedBody }))).IsPresent
        8000 0).1 = false ∧
    ((NewPresenceChecker (stubNet (Except.ok { StatusCode := 400, Body := bareBody }))).IsPresent
        8000 0).1 = false ∧
    ((NewPresenceChecker (stubNet (Except.error { Error := "connection refused" }))).IsPresent
        8000 0).1 = false ∧
    ((NewPresenceChecker (stubNet (Except.error
        { Error := "context deadline exceeded" }))).IsPresent 8000 0).1 = false :=
  ⟨(C11_presence_iff (stubNet (Except.ok { StatusCode := 400, Body := probeBody })) 8000 0).1.mpr
      ⟨{ Method := "GET", URL := "http://localhost:8000" },
       { StatusCode := 400, Body := probeBody },
       { Type_ := "com.amazonaws.dynamodb.v20120810#MissingAuthenticationToken" },
       ".v20120810#MissingAuthenticationToken", rfl, rfl, rfl, rfl, by decide⟩,
   by decide, by decide, by decide, by decide, by decide, by decide, by decide⟩

/-! ## C12 -/

/-- The loop body never indexes out of range, and the character it yields
is one of `letters`. -/
theorem letterAt_mem (b : Nat) : ∃ c : Char, letterAt b = some c ∧ c ∈ letters.toList := by
  have hlen : letters.length % 256 = 62 := by decide
  have hl : letters.toList.length = 62 := by decide
  have hlt : b % 256 % (letters.length % 256) < letters.toList.length := by
    rw [hlen, hl]
    exact Nat.mod_lt _ (by decide)
  refine ⟨letters.toList[b % 256 % (letters.length % 256)], ?_, List.getElem_mem _⟩
  unfold letterAt
  exact List.getElem?_eq_getElem hlt

/-- On a byte the loop body is `letters[b mod 62]`. -/
theorem letterAt_byte (b : Nat) (hb : b < 256) : letterAt b = letters.toList[b % 62]? := by
  have hlen : letters.length % 256 = 62 := by decide
  unfold letterAt
  rw [Nat.mod_eq_of_lt hb, hlen]

/-- The loop over the buffer: it never panics, keeps the length, yields
letters only, and the character at each place is the letter of the byte
there. -/
theorem mapLetters_spec (bs : List Nat) :
    ∃ cs : List Char, mapLetters bs = some cs ∧ cs.length = bs.length ∧
      (∀ c ∈ cs, c ∈ letters.toList) ∧
      ∀ (i b : Nat), bs[i]? = some b → cs[i]? = letterAt b := by
  induction bs with
  | nil => exact ⟨[], rfl, rfl, by simp, by simp⟩
  | cons b bs ih =>
    obtain ⟨cs, hcs, hlen, hmem, hget⟩ := ih
    obtain ⟨c, hc, hcm⟩ := letterAt_mem b
    refine ⟨c :: cs, by simp only [mapLetters, hc, hcs], by simp [hlen], ?_, ?_⟩
    · intro x hx
      rcases List.mem_cons.mp hx with h | h
      · exact h ▸ hcm
      · exact hmem x h
    · intro i x hx
      cases i with
      | zero =>
        simp only [List.getElem?_cons_zero, Option.some.injEq] at hx ⊢
        rw [← hx, hc]
      | succ i =>
        simp only [List.getElem?_cons_succ] at hx ⊢
        exact hget i x hx

/-- C12: when the random source fills the 12-byte buffer without error, the
default name generator returns, without error and without panicking, a
string of exactly 12 characters, each one of the 62 characters of `letters`
(the digits, the upper-case and the lower-case letters), character `i`
being `letters[byte_i mod 62]` with the index in range. When the source
fails it returns that error and the empty string, and it returns an error
only then; it panics for no output of the source. -/
theorem C12_generated_name {ω : Type} (Read : Nat → ω → (List Nat × Option GoError) × ω)
    (o : ω) :
    (∀ (bs : List Nat) (o2 : ω),
        Read 12 o = ((bs, none), o2) → bs.length = 12 → (∀ b ∈ bs, b < 256) →
          ∃ s : String,
            NewStringGenerator.Generate Read o = some ((s, none), o2) ∧
            s.length = 12 ∧
            (∀ c ∈ s.toList, c ∈ letters.toList) ∧
            ∀ (i b : Nat), bs[i]? = some b →
              b % 62 < letters.length ∧ s.toList[i]? = letters.toList[b % 62]?) ∧
      (∀ (bs : List Nat) (err : GoError) (o2 : ω),
        Read 12 o = ((bs, some err), o2) →
          NewStringGenerator.Generate Read o = some (("", some err), o2)) ∧
      (∀ (s : String) (err : GoError) (o2 : ω),
        NewStringGenerator.Generate Read o = some ((s, some err), o2) →
          (Read 12 o).1.2 = some err ∧ s = "") ∧
      (NewStringGenerator.Generate Read o).isSome = true ∧
      letters.length = 62 ∧
      letters.toList.Nodup ∧
      (∀ c ∈ letters.toList, c.isAlphanum = true) := by
  refine ⟨?_, ?_, ?_, ?_, by decide, by decide, by decide⟩
  · intro bs o2 hread hlen hbytes
    obtain ⟨cs, hcs, hcl, hmem, hget⟩ := mapLetters_spec bs
    refine ⟨String.mk cs, ?_, ?_, hmem, ?_⟩
    · simp only [NewStringGenerator.Generate, randStringGenFunc.Generate, genRandomString,
        hread, hcs]
    · show cs.length = 12
      rw [hcl, hlen]
    · intro i b hb
      have hb256 : b < 256 := hbytes b (List.getElem?_mem hb)
      refine ⟨?_, ?_⟩
      · have hl : letters.length = 62 := by decide
        rw [hl]
        exact Nat.mod_lt _ (by decide)
      · show cs[i]? = letters.toList[b % 62]?
        rw [hget i b hb, letterAt_byte b hb256]
  · intro bs err o2 hread
    simp only [NewStringGenerator.Generate, randStringGenFunc.Generate, genRandomString, hread]
  · intro s err o2 h
    simp only [NewStringGenerator.Generate, randStringGenFunc.Generate, genRandomString] at h
    cases hr : (Read 12 o).1.2 with
    | some e =>
      simp only [hr, Option.some.injEq, Prod.mk.injEq] at h
      exact ⟨by rw [h.1.2], h.1.1.symm⟩
    | none =>
      obtain ⟨cs, hcs, -⟩ := mapLetters_spec (Read 12 o).1.1
      simp [hr, hcs] at h
  · simp only [NewStringGenerator.Generate, randStringGenFunc.Generate, genRandomString]
    cases hr : (Read 12 o).1.2 with
    | some e => rfl
    | none =>
      obtain ⟨cs, hcs, -⟩ := mapLetters_spec (Read 12 o).1.1
      simp only [hcs, Option.isSome_some]

/-- Twelve bytes from both ends of the range give a 12-character name, and
a failing source gives its error and the empty string. -/
theorem C12_generated_name_witness :
    (∃ s : String,
      NewStringGenerator.Generate
          (fixedRead [0, 9, 10, 35, 36, 61, 62, 63, 123, 200, 254, 255] none) 0 =
        some ((s, none), 1) ∧ s.length = 12) ∧
    NewStringGenerator.Generate (fixedRead [0, 9, 10, 35, 36, 61, 62, 63, 123, 200, 254, 255] none)
        0 = some (("09AZaz01zE67", none), 1) ∧
    NewStringGenerator.Generate (fixedRead [] (some { Error := "no entropy" })) 0 =
      some (("", some { Error := "no entropy" }), 1) :=
  ⟨match (C12_generated_name (fixedRead [0, 9, 10, 35, 36, 61, 62, 63, 123, 200, 254, 255] none)
        0).1 [0, 9, 10, 35, 36, 61, 62, 63, 123, 200, 254, 255] 1 rfl rfl (by decide) with
    | ⟨s, hs, hl, _⟩ => ⟨s, hs, hl⟩,
   by decide,
   (C12_generated_name (fixedRead [] (some { Error := "no entropy" })) 0).2.1 []
      { Error := "no entropy" } 1 rfl⟩

/-! ## C13 -/

set_option maxRecDepth 100000 in
/-- C13 as stated fails: over the 256 byte values the character "0" has
five preimages under `b ↦ letters[b mod 62]` and the character "8" has four. -/
theorem C13_preimages_differ : preimages '0' = 5 ∧ preimages '8' = 4 := by
  decide

set_option maxRecDepth 100000 in
/-- C13, amended: over the 256 byte values every character of `letters` has
four or five preimages under `b ↦ letters[b mod 62]`: the first eight
characters ("0" to "7") have five each, the other fifty-four have four
each, which accounts for all 256 byte values. -/
theorem C13_preimage_counts :
    letters.toList.map preimages = List.replicate 8 5 ++ List.replicate 54 4 ∧
      (letters.toList.map preimages).sum = 256 ∧
      (∀ c ∈ letters.toList, preimages c = 4 ∨ preimages c = 5) := by
  decide

end Ddblocal
